import Mathlib

/-!
Shallow embedding of the `twilight-webhook` crate (files `src/cache.rs` and
`src/util.rs`) and proofs about its cache and webhook-execution helpers.

The Rust `Cache` wraps a concurrent map from channel ids to webhooks; here it
is modelled as an association list with at most one entry per key (the
operations maintain that invariant, expressed as `Cache.WF`).  Remote HTTP
calls are modelled by an oracle (`Remote`) giving the outcome of each listing
or creation request, and every cache operation additionally returns the list
of remote calls it issued, so that "makes no remote call" is a provable
statement.  The `unwrap` at the end of `get_infallible` is modelled by
returning the looked-up `Option` inside `Except.ok`: the value `Except.ok
none` represents the panic branch.
-/

/-- Channel identifier (twilight `Id<ChannelMarker>`, a nonzero u64). -/
abbrev ChannelId := Nat

/-- Guild identifier (twilight `Id<GuildMarker>`). -/
abbrev GuildId := Nat

/-- Webhook identifier (twilight `Id<WebhookMarker>`). -/
abbrev WebhookId := Nat

/-- The fields of `twilight_model::channel::Webhook` that the crate reads:
`id`, `channel_id`, `guild_id`, `token` and `name`.  The remaining fields
(kind, avatar, application id, source channel/guild, url, user) are never
inspected by `cache.rs` or `util.rs` and are omitted. -/
structure Webhook where
  id : WebhookId
  channel_id : ChannelId
  guild_id : Option GuildId
  token : Option String
  name : Option String
deriving DecidableEq, Repr

/-- The error enum of `cache.rs`: `Http` (request failed), `Deserialize`
(response could not be parsed) and `Validation` (request rejected while being
built).  The spec calls `Http` a RemoteError and `Deserialize` a DecodeError. -/
inductive Error where
  | http
  | deserialize
  | validation
deriving DecidableEq, Repr

/-- A remote call issued by a cache operation: listing the webhooks of a
channel (`Client::channel_webhooks`) or creating a webhook with a given name
(`Client::create_webhook`). -/
inductive RemoteCall where
  | list (channel_id : ChannelId)
  | create (channel_id : ChannelId) (name : String)
deriving DecidableEq, Repr

/-- Oracle for the remote service: the outcome of listing the webhooks of a
channel, and the outcome of creating a webhook in a channel with a name. -/
structure Remote where
  list : ChannelId → Except Error (List Webhook)
  create : ChannelId → String → Except Error Webhook

/-- The cache map, `DashMap<Id<ChannelMarker>, Webhook>`, modelled as an
association list from channel id to webhook. -/
abbrev Cache := List (ChannelId × Webhook)

namespace Cache

/-- Well-formedness: at most one entry per channel id.  Every state reachable
through the operations below satisfies it. -/
def WF (cache : Cache) : Prop := (cache.map Prod.fst).Nodup

/-- `Cache::get`: pure lookup of the entry for a channel id, no network
access. -/
def get (cache : Cache) (channel_id : ChannelId) : Option Webhook :=
  (cache.find? (fun p => p.1 == channel_id)).map Prod.snd

/-- `DashMap::contains_key`. -/
def contains (cache : Cache) (channel_id : ChannelId) : Bool :=
  cache.any (fun p => p.1 == channel_id)

/-- `DashMap::remove`: drop the entry for a key. -/
def remove (cache : Cache) (channel_id : ChannelId) : Cache :=
  cache.filter (fun p => !(p.1 == channel_id))

/-- `DashMap::insert`: overwrite any existing entry for the key. -/
def insert (cache : Cache) (channel_id : ChannelId) (w : Webhook) : Cache :=
  (channel_id, w) :: remove cache channel_id

/-- `Cache::get_infallible`.  Returns the cached webhook if present;
otherwise lists the webhooks of the channel, takes the first one with a
token, creating one with the fallback name when none qualifies, inserts the
result and returns the fresh lookup (the final `unwrap`: value `none` inside
`Except.ok` is the panic branch).  Besides the result, the new cache and the
remote calls issued are returned. -/
def get_infallible (cache : Cache) (r : Remote) (channel_id : ChannelId)
    (name : String) : Cache × List RemoteCall × Except Error (Option Webhook) :=
  match get cache channel_id with
  | some w => (cache, [], .ok (some w))
  | none =>
    match r.list channel_id with
    | .error e => (cache, [.list channel_id], .error e)
    | .ok hooks =>
      match hooks.find? (fun w => w.token.isSome) with
      | some w =>
        let c := insert cache channel_id w
        (c, [.list channel_id], .ok (get c channel_id))
      | none =>
        match r.create channel_id name with
        | .error e => (cache, [.list channel_id, .create channel_id name], .error e)
        | .ok w =>
          let c := insert cache channel_id w
          (c, [.list channel_id, .create channel_id name], .ok (get c channel_id))

/-- `Cache::create`: execute the prepared creation request (its outcome is the
`result` argument) and insert the returned webhook under its own channel id. -/
def create (cache : Cache) (result : Except Error Webhook) :
    Cache × Except Error Unit :=
  match result with
  | .error e => (cache, .error e)
  | .ok w => (insert cache w.channel_id w, .ok ())

/-- `Cache::validate`: early return when the channel is not cached; otherwise
list the webhooks of the channel and evict the entry when none of them has a
token. -/
def validate (cache : Cache) (r : Remote) (channel_id : ChannelId) :
    Cache × List RemoteCall × Except Error Unit :=
  if !(contains cache channel_id) then
    (cache, [], .ok ())
  else
    match r.list channel_id with
    | .error e => (cache, [.list channel_id], .error e)
    | .ok hooks =>
      if !(hooks.any (fun w => w.token.isSome)) then
        (remove cache channel_id, [.list channel_id], .ok ())
      else
        (cache, [.list channel_id], .ok ())

end Cache

/-- The gateway events `Cache::update` inspects: `ChannelDelete` (carrying the
deleted channel with its id and optional guild id), `GuildDelete` (carrying
the guild id and the `unavailable` flag) and every other event kind. -/
inductive Event where
  | channelDelete (channel_id : ChannelId) (guild_id : Option GuildId)
  | guildDelete (guild_id : GuildId) (unavailable : Bool)
  | other
deriving DecidableEq, Repr

namespace Cache

/-- `Cache::update`: on `ChannelDelete` remove the entry of that channel, on
`GuildDelete` retain only the entries whose webhook has a different (or no)
guild id, ignore every other event.  Local only: no remote oracle, no error. -/
def update (cache : Cache) (event : Event) : Cache :=
  match event with
  | .channelDelete channel_id _ => remove cache channel_id
  | .guildDelete guild_id _ =>
      cache.filter (fun p => decide (p.2.guild_id ≠ some guild_id))
  | .other => cache

end Cache

/-- The error enum of `util.rs`: `NoToken`, `Http` and `Validation`. -/
inductive UtilError where
  | noToken
  | http
  | validation
deriving DecidableEq, Repr

/-- `MinimalWebhook`: the id and token needed to execute a webhook. -/
structure MinimalWebhook where
  id : WebhookId
  token : String
deriving DecidableEq, Repr

namespace MinimalWebhook

/-- `TryFrom<&Webhook> for MinimalWebhook`: take the id and the token of the
webhook, failing with `NoToken` when the token is absent. -/
def tryFrom (webhook : Webhook) : Except UtilError MinimalWebhook :=
  match webhook.token with
  | some t => .ok ⟨webhook.id, t⟩
  | none => .error .noToken

end MinimalWebhook

/-- `MinimalMember`: display name and optional avatar URL. -/
structure MinimalMember where
  name : String
  avatar_url : Option String
deriving DecidableEq, Repr

/-- The parameters accumulated by the `ExecuteWebhook` request builder, as far
as `execute_as_member` sets them: the webhook route (id and token), the
username, the optional thread id and the optional avatar URL. -/
structure ExecuteWebhookParams where
  webhook_id : WebhookId
  token : String
  username : Option String
  thread_id : Option ChannelId
  avatar_url : Option String
deriving DecidableEq, Repr

namespace MinimalWebhook

/-- `MinimalWebhook::execute_as_member`.  Builds the request from the webhook
id and token, sets the username (twilight validates it; the predicate
`validUsername` models `twilight_validate`, external to this crate), then
sets the thread id when one is given and the avatar URL when the member has
one.  Pure request building: no cache, no state. -/
def execute_as_member (wh : MinimalWebhook) (validUsername : String → Bool)
    (thread : Option ChannelId) (member : MinimalMember) :
    Except UtilError ExecuteWebhookParams :=
  if validUsername member.name then
    let exec0 : ExecuteWebhookParams :=
      { webhook_id := wh.id, token := wh.token, username := some member.name,
        thread_id := none, avatar_url := none }
    let exec1 :=
      match thread with
      | some i => { exec0 with thread_id := some i }
      | none => exec0
    let exec2 :=
      match member.avatar_url with
      | some url => { exec1 with avatar_url := some url }
      | none => exec1
    .ok exec2
  else
    .error .validation

end MinimalWebhook

/-! Helper lemmas about the association-list cache. -/

/-- Pointwise equal predicates give the same first match. -/
theorem find_pred_congr (l : List α) (p q : α → Bool) (hpq : ∀ a, p a = q a) :
    l.find? p = l.find? q := by
  induction l with
  | nil => rfl
  | cons a t ih =>
    simp only [List.find?, hpq a]
    cases q a with
    | true => rfl
    | false => exact ih

/-- Searching a filtered list is searching for the conjunction. -/
theorem find_of_filter (l : List α) (p q : α → Bool) :
    (l.filter p).find? q = l.find? (fun a => p a && q a) := by
  induction l with
  | nil => rfl
  | cons a t ih =>
    cases hp : p a with
    | false => simp [List.filter_cons, List.find?, hp, ih]
    | true =>
      cases hq : q a with
      | false => simp [List.filter_cons, List.find?, hp, hq, ih]
      | true => simp [List.filter_cons, List.find?, hp, hq]

namespace Cache

/-- Lookup at the key of the head entry. -/
theorem get_cons_self (t : Cache) (c : ChannelId) (w : Webhook) :
    get ((c, w) :: t) c = some w := by
  simp [get, List.find?]

/-- Lookup skips a head entry with a different key. -/
theorem get_cons_ne (t : Cache) (k c : ChannelId) (w : Webhook) (hkc : k ≠ c) :
    get ((k, w) :: t) c = get t c := by
  have hb : (k == c) = false := by simp [hkc]
  simp [get, List.find?, hb]

/-- An insert is immediately visible under its own key. -/
theorem get_insert_self (cache : Cache) (c : ChannelId) (w : Webhook) :
    get (insert cache c w) c = some w := by
  simp [get, insert, List.find?]

/-- A removed key is gone. -/
theorem get_remove_self (cache : Cache) (c : ChannelId) :
    get (remove cache c) c = none := by
  have h := find_of_filter cache (fun p => !(p.1 == c)) (fun p => p.1 == c)
  have h2 : cache.find? (fun p : ChannelId × Webhook => !(p.1 == c) && (p.1 == c)) =
      cache.find? (fun _ => false) := by
    refine find_pred_congr _ _ _ (fun a => ?_)
    cases a.1 == c <;> rfl
  simp [get, remove, h, h2]

/-- Removing one key leaves every other key unchanged. -/
theorem get_remove_ne (cache : Cache) (c c' : ChannelId) (hne : c' ≠ c) :
    get (remove cache c) c' = get cache c' := by
  have h := find_of_filter cache (fun p => !(p.1 == c)) (fun p => p.1 == c')
  have h2 : cache.find? (fun p : ChannelId × Webhook => !(p.1 == c) && (p.1 == c')) =
      cache.find? (fun p => p.1 == c') := by
    refine find_pred_congr _ _ _ (fun a => ?_)
    cases hb : (a.1 == c') with
    | false => simp
    | true =>
      have ha : a.1 = c' := by simpa using hb
      have hc : (a.1 == c) = false := by
        rw [ha]
        simp [hne]
      simp [hc]
  simp [get, remove, h, h2]

/-- A key absent from the key list has no entry. -/
theorem get_eq_none_of_not_mem (cache : Cache) (c : ChannelId)
    (h : c ∉ cache.map Prod.fst) : get cache c = none := by
  have hfind : cache.find? (fun p => p.1 == c) = none := by
    rw [List.find?_eq_none]
    intro p hp hbeq
    exact h (List.mem_map.mpr ⟨p, hp, by simpa using hbeq⟩)
  simp [get, hfind]

/-- Lookup through a filter on a well-formed cache: the entry survives exactly
when the predicate accepts it. -/
theorem get_filter_wf (cache : Cache) (p : ChannelId × Webhook → Bool)
    (c : ChannelId) (h : WF cache) :
    get (cache.filter p) c =
      match get cache c with
      | some w => if p (c, w) then some w else none
      | none => none := by
  induction cache with
  | nil => rfl
  | cons a t ih =>
    obtain ⟨k, w⟩ := a
    have hnd : (t.map Prod.fst).Nodup := (List.nodup_cons.mp h).2
    have hk : k ∉ t.map Prod.fst := (List.nodup_cons.mp h).1
    by_cases hkc : k = c
    · subst hkc
      have htfc : get (t.filter p) k = none := by
        refine get_eq_none_of_not_mem _ _ (fun hmem => hk ?_)
        obtain ⟨q, hq, hq2⟩ := List.mem_map.mp hmem
        exact List.mem_map.mpr ⟨q, (List.mem_filter.mp hq).1, hq2⟩
      cases hp : p (k, w) with
      | true =>
        have hf : ((k, w) :: t).filter p = (k, w) :: t.filter p := by
          simp [List.filter_cons, hp]
        rw [hf, get_cons_self, get_cons_self]
        simp [hp]
      | false =>
        have hf : ((k, w) :: t).filter p = t.filter p := by
          simp [List.filter_cons, hp]
        rw [hf, htfc, get_cons_self]
        simp [hp]
    · cases hp : p (k, w) with
      | true =>
        have hf : ((k, w) :: t).filter p = (k, w) :: t.filter p := by
          simp [List.filter_cons, hp]
        rw [hf, get_cons_ne _ _ _ _ hkc, get_cons_ne _ _ _ _ hkc]
        exact ih hnd
      | false =>
        have hf : ((k, w) :: t).filter p = t.filter p := by
          simp [List.filter_cons, hp]
        rw [hf, get_cons_ne _ _ _ _ hkc]
        exact ih hnd

end Cache

/-! Concrete sample data used by the witness theorems. -/

/-- Sample webhook that carries a token, in channel 5 of guild 10. -/
def webhookTok : Webhook :=
  { id := 1, channel_id := 5, guild_id := some 10, token := some "T", name := some "wh" }

/-- Sample webhook without a token, in channel 5 of guild 10. -/
def webhookNoTok : Webhook :=
  { id := 2, channel_id := 5, guild_id := some 10, token := none, name := none }

/-- Sample webhook with a token, in channel 2 of guild 11. -/
def webhookG11 : Webhook :=
  { id := 4, channel_id := 2, guild_id := some 11, token := some "V", name := none }

/-- Remote oracle whose listing holds a token-free and a token-bearing webhook. -/
def remoteSample : Remote :=
  { list := fun _ => .ok [webhookNoTok, webhookTok],
    create := fun cid n =>
      .ok { id := 3, channel_id := cid, guild_id := none, token := some "U",
            name := some n } }

/-- Remote oracle whose listings are empty. -/
def remoteEmptyList : Remote :=
  { list := fun _ => .ok [],
    create := fun cid n =>
      .ok { id := 3, channel_id := cid, guild_id := none, token := some "U",
            name := some n } }

/-- Remote oracle on which every call fails. -/
def remoteFailing : Remote :=
  { list := fun _ => .error .http,
    create := fun _ _ => .error .http }

/-- Sample display identity with an avatar URL. -/
def memberSample : MinimalMember :=
  { name := "nick", avatar_url := some "https://cdn.example/avatar.png" }

/-- The request parameters `execute_as_member` builds for `memberSample`,
thread 9 and the webhook with id 1 and token T. -/
def executeParamsSample : ExecuteWebhookParams :=
  { webhook_id := 1, token := "T", username := some "nick",
    thread_id := some 9, avatar_url := some "https://cdn.example/avatar.png" }

/-! Claim theorems. -/

/-- Claim C1: for every channel c and fallback name, `get_infallible` returns
the cached handle if one is present for c, making no remote call; otherwise
it lists the webhooks of the channel and returns the first listed webhook
whose token is present; if no listed webhook has a token it creates a new
webhook in c with the fallback name and returns that; in both miss cases the
resulting handle is inserted into the cache before being returned. -/
theorem c1_get_infallible_spec (cache : Cache) (r : Remote) (c : ChannelId)
    (name : String) :
    (∀ w, Cache.get cache c = some w →
        Cache.get_infallible cache r c name = (cache, [], Except.ok (some w)))
    ∧ (Cache.get cache c = none →
        ∀ hooks, r.list c = Except.ok hooks →
          (∀ w, hooks.find? (fun x => x.token.isSome) = some w →
              Cache.get_infallible cache r c name =
                (Cache.insert cache c w, [RemoteCall.list c], Except.ok (some w)))
          ∧ (hooks.find? (fun x => x.token.isSome) = none →
              ∀ w, r.create c name = Except.ok w →
                Cache.get_infallible cache r c name =
                  (Cache.insert cache c w,
                    [RemoteCall.list c, RemoteCall.create c name],
                    Except.ok (some w)))) := by
  refine ⟨fun w hw => ?_, fun hnone hooks hl => ⟨fun w hf => ?_, fun hf w hc => ?_⟩⟩
  · simp [Cache.get_infallible, hw]
  · simp [Cache.get_infallible, hnone, hl, hf, Cache.get_insert_self]
  · simp [Cache.get_infallible, hnone, hl, hf, hc, Cache.get_insert_self]

/-- Claim C1 witness: concrete miss on an empty cache where the listing holds
a token-bearing webhook in second position; it is selected and cached. -/
theorem c1_get_infallible_spec_witness :
    Cache.get_infallible [] remoteSample 5 "bot" =
      (Cache.insert [] 5 webhookTok, [RemoteCall.list 5],
        Except.ok (some webhookTok)) :=
  ((c1_get_infallible_spec [] remoteSample 5 "bot").2 rfl
    [webhookNoTok, webhookTok] rfl).1 webhookTok rfl

/-- Claim C2: for every channel with a cached entry, `validate` removes the
entry if and only if the remote listing has no token-bearing webhook; when
the listing has one, the whole cache (hence the entry and its content) is
left unchanged. -/
theorem c2_validate_cached (cache : Cache) (r : Remote) (c : ChannelId)
    (hooks : List Webhook) (hmem : Cache.contains cache c = true)
    (hl : r.list c = Except.ok hooks) :
    (hooks.any (fun w => w.token.isSome) = true →
        Cache.validate cache r c = (cache, [RemoteCall.list c], Except.ok ()))
    ∧ (hooks.any (fun w => w.token.isSome) = false →
        Cache.validate cache r c =
          (Cache.remove cache c, [RemoteCall.list c], Except.ok ())
        ∧ Cache.get (Cache.remove cache c) c = none) := by
  constructor
  · intro hany
    simp [Cache.validate, hmem, hl, hany]
  · intro hany
    exact ⟨by simp [Cache.validate, hmem, hl, hany], Cache.get_remove_self cache c⟩

/-- Claim C2 witness: a cached channel whose remote listing is empty is
evicted by `validate`. -/
theorem c2_validate_cached_witness :
    Cache.validate [(5, webhookTok)] remoteEmptyList 5 =
      (Cache.remove [(5, webhookTok)] 5, [RemoteCall.list 5], Except.ok ())
    ∧ Cache.get (Cache.remove [(5, webhookTok)] 5) 5 = none :=
  (c2_validate_cached [(5, webhookTok)] remoteEmptyList 5 [] rfl rfl).2 rfl

/-- Claim C3: processing a `GuildDelete` event for guild g removes exactly
the entries whose stored webhook has guild id g and leaves every entry with a
different or absent guild id unchanged. -/
theorem c3_update_guild_delete (cache : Cache) (g : GuildId) (u : Bool)
    (c : ChannelId) (h : Cache.WF cache) :
    Cache.get (Cache.update cache (Event.guildDelete g u)) c =
      match Cache.get cache c with
      | some w => if w.guild_id = some g then none else some w
      | none => none := by
  have hf := Cache.get_filter_wf cache
    (fun p => decide (p.2.guild_id ≠ some g)) c h
  simp only [Cache.update]
  rw [hf]
  cases Cache.get cache c with
  | none => rfl
  | some w =>
    by_cases hw : w.guild_id = some g
    · simp [hw]
    · simp [hw]

/-- Claim C3 witness: deleting guild 10 evicts the channel-5 entry (guild 10)
and keeps the channel-2 entry (guild 11). -/
theorem c3_update_guild_delete_witness :
    Cache.get (Cache.update [(5, webhookTok), (2, webhookG11)]
        (Event.guildDelete 10 false)) 5 = none
    ∧ Cache.get (Cache.update [(5, webhookTok), (2, webhookG11)]
        (Event.guildDelete 10 false)) 2 = some webhookG11 := by
  have hwf : Cache.WF [(5, webhookTok), (2, webhookG11)] := by
    unfold Cache.WF
    decide
  have h5 := c3_update_guild_delete [(5, webhookTok), (2, webhookG11)] 10 false 5 hwf
  have h2 := c3_update_guild_delete [(5, webhookTok), (2, webhookG11)] 10 false 2 hwf
  rw [h5, h2]
  constructor <;> rfl

/-- Claim C4: when a remote call fails or its response cannot be parsed, the
network-touching cache operations (`get_infallible`, `validate`, `create`)
return that error unchanged, issue no retry (the call lists hold one attempt
per request), and leave the cache map exactly as it was. -/
theorem c4_error_propagation (cache : Cache) (r : Remote) (c : ChannelId)
    (name : String) (e : Error) (res : Except Error Webhook) :
    (Cache.get cache c = none → r.list c = Except.error e →
        Cache.get_infallible cache r c name =
          (cache, [RemoteCall.list c], Except.error e))
    ∧ (Cache.get cache c = none →
        ∀ hooks, r.list c = Except.ok hooks →
          hooks.find? (fun w => w.token.isSome) = none →
          r.create c name = Except.error e →
          Cache.get_infallible cache r c name =
            (cache, [RemoteCall.list c, RemoteCall.create c name],
              Except.error e))
    ∧ (Cache.contains cache c = true → r.list c = Except.error e →
        Cache.validate cache r c = (cache, [RemoteCall.list c], Except.error e))
    ∧ (res = Except.error e → Cache.create cache res = (cache, Except.error e)) := by
  refine ⟨fun hg hl => ?_, fun hg hooks hl hf hc => ?_, fun hm hl => ?_,
    fun hr => ?_⟩
  · simp [Cache.get_infallible, hg, hl]
  · simp [Cache.get_infallible, hg, hl, hf, hc]
  · simp [Cache.validate, hm, hl]
  · simp [Cache.create, hr]

/-- Claim C4 witness: failing listing during a miss, failing listing during
validation of a cached channel, and a failing creation each propagate the
error and keep the cache as it was. -/
theorem c4_error_propagation_witness :
    Cache.get_infallible [] remoteFailing 5 "bot" =
      ([], [RemoteCall.list 5], Except.error Error.http)
    ∧ Cache.validate [(5, webhookTok)] remoteFailing 5 =
        ([(5, webhookTok)], [RemoteCall.list 5], Except.error Error.http)
    ∧ Cache.create [] (Except.error Error.deserialize) =
        ([], Except.error Error.deserialize) :=
  ⟨(c4_error_propagation [] remoteFailing 5 "bot" Error.http
      (Except.error Error.http)).1 rfl rfl,
   (c4_error_propagation [(5, webhookTok)] remoteFailing 5 "bot" Error.http
      (Except.error Error.http)).2.2.1 rfl rfl,
   (c4_error_propagation [] remoteFailing 5 "bot" Error.deserialize
      (Except.error Error.deserialize)).2.2.2 rfl⟩

/-- Claim C5: a `ChannelDelete` event for channel cid makes `get cid` return
absent whatever was cached, leaves every other channel unchanged, and the
operation is local (pure, no remote oracle) and total. -/
theorem c5_update_channel_delete (cache : Cache) (cid : ChannelId)
    (gid : Option GuildId) (c : ChannelId) :
    Cache.get (Cache.update cache (Event.channelDelete cid gid)) c =
      if c = cid then none else Cache.get cache c := by
  by_cases h : c = cid
  · subst h
    simp [Cache.update, Cache.get_remove_self]
  · simp [Cache.update, h, Cache.get_remove_ne cache cid c h]

/-- Claim C6: `validate` on a channel with no cached entry makes no remote
call, returns success, and leaves the whole cache unchanged. -/
theorem c6_validate_no_entry (cache : Cache) (r : Remote) (c : ChannelId)
    (h : Cache.contains cache c = false) :
    Cache.validate cache r c = (cache, [], Except.ok ()) := by
  simp [Cache.validate, h]

/-- Claim C6 witness: validating an uncached channel succeeds without touching
the remote service even when every remote call would fail. -/
theorem c6_validate_no_entry_witness :
    Cache.validate [] remoteFailing 7 = ([], [], Except.ok ()) :=
  c6_validate_no_entry [] remoteFailing 7 rfl

/-- Claim C7: after `get_infallible` returns successfully for channel c, `get
c` on the resulting cache returns the returned handle, and a second
`get_infallible` for c issues no remote call and returns the same handle;
likewise after `create` succeeds, the inserted webhook is found under its
channel id and a following `get_infallible` is a silent hit. -/
theorem c7_cached_after_success (cache : Cache) (r : Remote) (c : ChannelId)
    (name : String) (res : Except Error Webhook) :
    (∀ cache' calls w,
        Cache.get_infallible cache r c name = (cache', calls, Except.ok (some w)) →
          Cache.get cache' c = some w
          ∧ Cache.get_infallible cache' r c name =
              (cache', [], Except.ok (some w)))
    ∧ (∀ w, res = Except.ok w →
        Cache.get (Cache.create cache res).1 w.channel_id = some w
        ∧ Cache.get_infallible (Cache.create cache res).1 r w.channel_id name =
            ((Cache.create cache res).1, [], Except.ok (some w))) := by
  constructor
  · intro cache' calls w hrun
    have hkey : Cache.get cache' c = some w := by
      unfold Cache.get_infallible at hrun
      cases hg : Cache.get cache c with
      | some w0 =>
        simp only [hg, Prod.mk.injEq, Except.ok.injEq, Option.some.injEq] at hrun
        obtain ⟨h1, h2, h3⟩ := hrun
        rw [← h1, ← h3]
        exact hg
      | none =>
        cases hl : r.list c with
        | error e =>
          simp only [hg, hl, Prod.mk.injEq] at hrun
          exact Except.noConfusion hrun.2.2
        | ok hooks =>
          cases hf : hooks.find? (fun x => x.token.isSome) with
          | some w0 =>
            simp only [hg, hl, hf, Cache.get_insert_self, Prod.mk.injEq,
              Except.ok.injEq, Option.some.injEq] at hrun
            obtain ⟨h1, h2, h3⟩ := hrun
            rw [← h1, ← h3]
            exact Cache.get_insert_self cache c w0
          | none =>
            cases hc : r.create c name with
            | error e =>
              simp only [hg, hl, hf, hc, Prod.mk.injEq] at hrun
              exact Except.noConfusion hrun.2.2
            | ok w0 =>
              simp only [hg, hl, hf, hc, Cache.get_insert_self, Prod.mk.injEq,
                Except.ok.injEq, Option.some.injEq] at hrun
              obtain ⟨h1, h2, h3⟩ := hrun
              rw [← h1, ← h3]
              exact Cache.get_insert_self cache c w0
    exact ⟨hkey, by simp [Cache.get_infallible, hkey]⟩
  · intro w hr
    subst hr
    constructor
    · simp [Cache.create, Cache.get_insert_self]
    · simp [Cache.create, Cache.get_infallible, Cache.get_insert_self]

/-- Claim C7 witness: after the concrete miss of the C1 scenario the webhook
is cached under channel 5 and a second call is a silent hit; similarly after
a direct creation. -/
theorem c7_cached_after_success_witness :
    (Cache.get [(5, webhookTok)] 5 = some webhookTok
      ∧ Cache.get_infallible [(5, webhookTok)] remoteSample 5 "bot" =
          ([(5, webhookTok)], [], Except.ok (some webhookTok)))
    ∧ (Cache.get (Cache.create [] (Except.ok webhookTok)).1
          webhookTok.channel_id = some webhookTok
        ∧ Cache.get_infallible (Cache.create [] (Except.ok webhookTok)).1
            remoteSample webhookTok.channel_id "bot" =
              ((Cache.create [] (Except.ok webhookTok)).1, [],
                Except.ok (some webhookTok))) :=
  ⟨(c7_cached_after_success [] remoteSample 5 "bot"
      (Except.ok webhookTok)).1 [(5, webhookTok)] [RemoteCall.list 5]
      webhookTok rfl,
   (c7_cached_after_success [] remoteSample 5 "bot"
      (Except.ok webhookTok)).2 webhookTok rfl⟩

/-- Claim C8: building a `MinimalWebhook` from a webhook returns the
`NoToken` error if and only if the webhook has no token; with a token it
succeeds carrying the same id and token.  The construction takes no cache
argument, so it can neither read nor mutate the cache. -/
theorem c8_try_from_spec (w : Webhook) :
    (MinimalWebhook.tryFrom w = Except.error UtilError.noToken ↔ w.token = none)
    ∧ (∀ t, w.token = some t →
        MinimalWebhook.tryFrom w = Except.ok ⟨w.id, t⟩) := by
  constructor
  · constructor
    · intro h
      cases ht : w.token with
      | none => rfl
      | some t => simp [MinimalWebhook.tryFrom, ht] at h
    · intro h
      simp [MinimalWebhook.tryFrom, h]
  · intro t ht
    simp [MinimalWebhook.tryFrom, ht]

/-- Claim C8 witness: the sample token-bearing webhook yields a handle with
its id and token, and the token-free sample yields `NoToken`. -/
theorem c8_try_from_spec_witness :
    MinimalWebhook.tryFrom webhookTok = Except.ok ⟨webhookTok.id, "T"⟩ :=
  (c8_try_from_spec webhookTok).2 "T" rfl

/-- Claim C9: on success, `execute_as_member` builds parameters whose
username is the display name of the member, whose avatar URL field equals the
optional avatar URL of the member, whose thread id field equals the optional
thread argument, and whose route is the id and token of the handle; it takes
no cache and holds no state. -/
theorem c9_execute_as_member_spec (wh : MinimalWebhook)
    (validUsername : String → Bool) (thread : Option ChannelId)
    (member : MinimalMember) (params : ExecuteWebhookParams)
    (h : MinimalWebhook.execute_as_member wh validUsername thread member =
      Except.ok params) :
    params.webhook_id = wh.id ∧ params.token = wh.token
    ∧ params.username = some member.name
    ∧ params.thread_id = thread
    ∧ params.avatar_url = member.avatar_url := by
  obtain ⟨mname, mavatar⟩ := member
  cases hv : validUsername mname with
  | false => simp [MinimalWebhook.execute_as_member, hv] at h
  | true =>
    cases thread <;> cases mavatar <;>
      (simp [MinimalWebhook.execute_as_member, hv, Except.ok.injEq] at h;
       subst h; simp)

/-- Claim C9 witness: concrete build with a thread id and an avatar URL. -/
theorem c9_execute_as_member_spec_witness :
    executeParamsSample.webhook_id = (MinimalWebhook.mk 1 "T").id
    ∧ executeParamsSample.token = (MinimalWebhook.mk 1 "T").token
    ∧ executeParamsSample.username = some memberSample.name
    ∧ executeParamsSample.thread_id = some 9
    ∧ executeParamsSample.avatar_url = memberSample.avatar_url :=
  c9_execute_as_member_spec (MinimalWebhook.mk 1 "T") (fun _ => true) (some 9)
    memberSample executeParamsSample rfl

/-- Claim C10: the final lookup-and-unwrap of `get_infallible` never panics
under sequential semantics: an insert is immediately visible under its key,
so the operation never produces the panic value `Except.ok none`. -/
theorem c10_unwrap_never_panics (cache : Cache) (r : Remote) (c : ChannelId)
    (name : String) (w : Webhook) :
    Cache.get (Cache.insert cache c w) c = some w
    ∧ (Cache.get_infallible cache r c name).2.2 ≠ Except.ok none := by
  refine ⟨Cache.get_insert_self cache c w, ?_⟩
  unfold Cache.get_infallible
  cases hg : Cache.get cache c with
  | some w0 => simp
  | none =>
    cases hl : r.list c with
    | error e => simp
    | ok hooks =>
      cases hf : hooks.find? (fun x => x.token.isSome) with
      | some w0 => simp [hf, Cache.get_insert_self]
      | none =>
        cases hc : r.create c name with
        | error e => simp [hf, hc]
        | ok w0 => simp [hf, hc, Cache.get_insert_self]
